import Mathlib

/-!
Shallow embedding of the zen-freq CPU frequency driver
(src/zen-freq.c, src/zen-freq.h) and verification of its
natural-language specification.

Modelling conventions:
- C `u32`/`unsigned int` arithmetic is `Nat` with explicit wrap where the
  source can wrap: `u32sub` models unsigned subtraction, `% U32` models
  the 32-bit truncation of products/sums, `% 256` models assignment to a
  `u8` field or parameter.
- C `s32` arithmetic is `Int`; C division of signed values truncates
  toward zero, modelled with `Int.tdiv`.
- The uninitialized read of `new_max_perf` in `zen_thermal_check_cpu`
  (the SoftThrottle-to-Recovery branch never assigns it) is modelled by
  returning an `Option Nat` candidate from the state-machine branches:
  `none` marks the branch that leaves the variable unassigned, and the
  value actually read in that case is an arbitrary byte supplied as the
  `undef` argument.
- Pointer-null guards (`!zcpu`, null RCU table) and the RCU mechanics of
  publication/reclamation are outside this sequential embedding; records
  stand for the pointed-to state.
-/

/-- 2^32, the modulus of C `unsigned int` / `u32` arithmetic. -/
def U32 : Nat := 4294967296

/-- C unsigned 32-bit subtraction `a - b` (wraps modulo 2^32). -/
def u32sub (a b : Nat) : Nat := (a + (U32 - b % U32)) % U32

/- Constants from zen-freq.h -/

def ZEN_THERMAL_SOFT_LIMIT : Nat := 80
def ZEN_THERMAL_HARD_LIMIT : Nat := 90
def ZEN_THERMAL_HYSTERESIS : Nat := 3
def ZEN_THERMAL_SAFE_LIMIT : Nat := 75
def ZEN_THERMAL_KP : Int := 50
def ZEN_THERMAL_KI : Int := 10
def ZEN_THERMAL_INTEGRAL_MAX : Int := 1000
def ZEN_VOLTAGE_MAX_SAFE : Nat := 1450
def ZEN_VOLTAGE_BOOST_MAX : Nat := 1500
def ZEN_FREQ_BASE : Nat := 25
def ZEN_FREQ_MULTIPLIER : Nat := 1000

/-- ZEN_CLAMP macro from zen-freq.h: `(val < min ? min : (val > max ? max : val))`. -/
def ZEN_CLAMP (val lo hi : Int) : Int :=
  if val < lo then lo else if val > hi then hi else val

/-- ZEN_VID_TO_MV macro: `1550 - vid * 25`, computed in `int` and stored into a
`u32` (so a negative result wraps modulo 2^32). -/
def ZEN_VID_TO_MV (vid : Nat) : Nat :=
  ((1550 - 25 * (vid : Int)) % (4294967296 : Int)).toNat

/-- ZEN_FREQ_TO_PERF macro: all arithmetic in C `unsigned int`. -/
def ZEN_FREQ_TO_PERF (freq min_freq max_freq min_perf max_perf : Nat) : Nat :=
  (min_perf + (u32sub max_perf min_perf * u32sub freq min_freq) % U32 /
    u32sub max_freq min_freq) % U32

/-- ZEN_PERF_TO_FREQ macro: all arithmetic in C `unsigned int`. -/
def ZEN_PERF_TO_FREQ (perf min_perf max_perf min_freq max_freq : Nat) : Nat :=
  (min_freq + (u32sub max_freq min_freq * u32sub perf min_perf) % U32 /
    u32sub max_perf min_perf) % U32

/-- Thermal state machine states (enum zen_thermal_state). -/
inductive ZenThermalState where
  | Normal
  | SoftThrottle
  | HardThrottle
  | Recovery
  deriving DecidableEq, Repr

/-- struct zen_pstate. -/
structure ZenPstate where
  pstate : Nat
  freq : Nat
  voltage : Nat
  vid : Nat
  fid : Nat
  did : Nat
  div : Nat
  en : Bool
  boost : Bool
  safe : Bool
  deriving DecidableEq, Repr

/-- struct zen_perf_target (without the rcu head, which is reclamation
machinery, not data). -/
structure ZenPerfTarget where
  desired_perf : Nat
  min_perf : Nat
  max_perf : Nat
  epp : Nat
  timestamp : Nat
  sequence : Nat
  deriving DecidableEq, Repr

/-- The module parameters read by the functions modelled here. -/
structure ZenParams where
  mode : Nat
  min_perf : Nat
  max_perf : Nat
  soft_temp : Nat
  hard_temp : Nat
  voltage_max : Nat
  deriving DecidableEq, Repr

/-- struct zen_freq_cpu: the fields the modelled operations touch.  The
frequency table is the list of entries before CPUFREQ_TABLE_END. -/
structure ZenFreqCpu where
  pstates : List ZenPstate
  max_freq : Nat
  min_freq : Nat
  nominal_freq : Nat
  highest_perf : Nat
  lowest_perf : Nat
  nominal_perf : Nat
  cur_pstate : Nat
  perf_target : Option ZenPerfTarget
  freq_table : List Nat
  thermal_state : ZenThermalState
  thermal_integral : Int
  thermal_throttle_perf : Nat
  last_temp : Nat
  io_boost_active : Bool
  io_boost_expire : Nat
  last_io_wait : Nat
  util_low_since : Nat
  dynamic_epp : Nat
  stats_thermal_events : Nat
  stats_voltage_clamps : Nat
  deriving DecidableEq, Repr

/- ============================================================
   Thermal guard (zen_thermal_pi_controller, zen_thermal_check_cpu)
   ============================================================ -/

/-- zen_thermal_pi_controller: returns the updated integral accumulator and
the recommended max_perf.  C signed division truncates toward zero
(`Int.div`). -/
def zen_thermal_pi_controller (p : ZenParams) (integral : Int) (temp : Nat) :
    Int × Nat :=
  let error : Int := (temp : Int) - (p.soft_temp : Int)
  let proportional : Int := Int.tdiv (error * ZEN_THERMAL_KP) 1000
  let acc0 : Int := integral + error
  let acc : Int :=
    if acc0 > ZEN_THERMAL_INTEGRAL_MAX then ZEN_THERMAL_INTEGRAL_MAX
    else if acc0 < -ZEN_THERMAL_INTEGRAL_MAX then -ZEN_THERMAL_INTEGRAL_MAX
    else acc0
  let integralTerm : Int := Int.tdiv (acc * ZEN_THERMAL_KI) 1000
  let adjustment : Int := proportional + integralTerm
  let max_perf : Nat :=
    if adjustment > 0 then ((255 : Int) - ZEN_CLAMP adjustment 0 255).toNat
    else 255
  (acc, max_perf)

/-- The switch statement of zen_thermal_check_cpu: from the prior state and
the sampled temperature, the new state, the new integral accumulator, and
the candidate `new_max_perf`.  `none` is the SoftThrottle-to-Recovery
branch, which leaves `new_max_perf` unassigned in the C source. -/
def zen_thermal_branches (p : ZenParams) (z : ZenFreqCpu) (temp : Nat) :
    ZenThermalState × Int × Option Nat :=
  match z.thermal_state with
  | .Normal =>
    if temp ≥ p.hard_temp then
      (.HardThrottle, z.thermal_integral, some z.lowest_perf)
    else if temp ≥ p.soft_temp then
      let r := zen_thermal_pi_controller p z.thermal_integral temp
      (.SoftThrottle, r.1, some r.2)
    else
      (.Normal, z.thermal_integral, some p.max_perf)
  | .SoftThrottle =>
    if temp ≥ p.hard_temp then
      (.HardThrottle, z.thermal_integral, some z.lowest_perf)
    else if temp < u32sub p.soft_temp ZEN_THERMAL_HYSTERESIS then
      (.Recovery, 0, none)
    else
      let r := zen_thermal_pi_controller p z.thermal_integral temp
      (.SoftThrottle, r.1, some r.2)
  | .HardThrottle =>
    if temp < u32sub p.hard_temp ZEN_THERMAL_HYSTERESIS then
      let r := zen_thermal_pi_controller p z.thermal_integral temp
      (.SoftThrottle, r.1, some r.2)
    else
      (.HardThrottle, z.thermal_integral, some z.lowest_perf)
  | .Recovery =>
    if temp < ZEN_THERMAL_SAFE_LIMIT then
      (.Normal, z.thermal_integral, some p.max_perf)
    else if temp ≥ p.soft_temp then
      let r := zen_thermal_pi_controller p z.thermal_integral temp
      (.SoftThrottle, r.1, some r.2)
    else
      (.Recovery, z.thermal_integral, some (min (z.thermal_throttle_perf + 10) 255))

/-- zen_thermal_check_cpu for one poll with sampled temperature `temp`
(0 means an invalid sensor read: the state is left untouched).  `undef` is
the arbitrary byte observed if the unassigned-candidate branch is taken;
storing into the `u8` field truncates with `% 256`. -/
def zen_thermal_check_cpu (p : ZenParams) (z : ZenFreqCpu) (temp undef : Nat) :
    ZenFreqCpu :=
  if temp = 0 then z
  else
    let z1 := { z with last_temp := temp }
    let r := zen_thermal_branches p z1 temp
    let new_max_perf := (r.2.2.getD undef) % 256
    let z2 :=
      if new_max_perf ≠ z1.thermal_throttle_perf then
        { z1 with thermal_throttle_perf := new_max_perf,
                  stats_thermal_events := z1.stats_thermal_events + 1 }
      else z1
    { z2 with thermal_state := r.1, thermal_integral := r.2.1 }

/-- Successive thermal polls: each pair is (sampled temperature, arbitrary
byte for the unassigned-candidate branch); returns the state after each
poll. -/
def zen_thermal_run (p : ZenParams) (z : ZenFreqCpu) :
    List (Nat × Nat) → List ZenFreqCpu
  | [] => []
  | s :: rest =>
    let z1 := zen_thermal_check_cpu p z s.1 s.2
    z1 :: zen_thermal_run p z1 rest

/- ============================================================
   Voltage safety verifier
   ============================================================ -/

/-- The branch structure of zen_voltage_verify_pstate as a function of the
computed voltage: accepted (true) or rejected (false). -/
def zen_voltage_verify_decision (voltage_mv voltage_max : Nat) (boost : Bool) :
    Bool :=
  if voltage_mv > voltage_max then
    boost && decide (voltage_mv ≤ ZEN_VOLTAGE_BOOST_MAX)
  else true

/-- zen_voltage_verify_pstate: computes the voltage from the VID, stores it,
and returns the updated point together with the verdict. -/
def zen_voltage_verify_pstate (voltage_max : Nat) (ps : ZenPstate) :
    ZenPstate × Bool :=
  let v := ZEN_VID_TO_MV ps.vid
  let ps1 := { ps with voltage := v }
  if v > voltage_max then
    if ps1.boost ∧ v ≤ ZEN_VOLTAGE_BOOST_MAX then (ps1, true)
    else ({ ps1 with safe := false }, false)
  else
    ({ ps1 with safe := true }, true)

/-- The main loop of zen_voltage_check_all_pstates over `zcpu->pstates`:
returns the updated points and the number of voltage_clamps increments
(one per rejected point). -/
def zen_voltage_check_list (voltage_max : Nat) : List ZenPstate → List ZenPstate × Nat
  | [] => ([], 0)
  | ps :: rest =>
    let r := zen_voltage_verify_pstate voltage_max ps
    let rr := zen_voltage_check_list voltage_max rest
    (r.1 :: rr.1, (if r.2 then 0 else 1) + rr.2)

/-- zen_voltage_check_all_pstates: verifies the main array (incrementing the
clamp counter per rejected point) and the boost array (no counter there);
always returns success in the C source.  Result: updated main list, updated
boost list, number of clamp-counter increments. -/
def zen_voltage_check_all_pstates (voltage_max : Nat) (ps bs : List ZenPstate) :
    List ZenPstate × List ZenPstate × Nat :=
  let m := zen_voltage_check_list voltage_max ps
  let b := bs.map (fun q => (zen_voltage_verify_pstate voltage_max q).1)
  (m.1, b, m.2)

/- ============================================================
   Performance-target store (zen_perf_target_*)
   ============================================================ -/

/-- The initial performance target: zen_perf_target_alloc uses kzalloc, so
every field is zero. -/
def zen_perf_target_init : ZenPerfTarget :=
  { desired_perf := 0, min_perf := 0, max_perf := 0, epp := 0,
    timestamp := 0, sequence := 0 }

/-- zen_perf_target_update: the published target.  Parameters are `u8`
(truncated `% 256`); the timestamp is the caller-visible clock; the
sequence is `zcpu->cur_pstate + 1` in `unsigned int`. -/
def zen_perf_target_update (z : ZenFreqCpu) (desired mn mx epp now : Nat) :
    ZenPerfTarget :=
  { desired_perf := desired % 256
    min_perf := mn % 256
    max_perf := mx % 256
    epp := epp % 256
    timestamp := now
    sequence := (z.cur_pstate + 1) % U32 }

/-- zen_freq_set_policy: republishes the performance target from the policy
bounds `pmin`/`pmax`, the thermal throttle ceiling, and the dynamic EPP. -/
def zen_freq_set_policy (z : ZenFreqCpu) (pmin pmax now : Nat) : ZenPerfTarget :=
  zen_perf_target_update z
    (ZEN_FREQ_TO_PERF pmax z.min_freq z.max_freq 0 255)
    (ZEN_FREQ_TO_PERF pmin z.min_freq z.max_freq 0 255)
    z.thermal_throttle_perf
    z.dynamic_epp
    now

/- ============================================================
   Hot-path selector (zen_freq_fast_switch_lockless)
   ============================================================ -/

/-- The linear scan of zen_freq_fast_switch_lockless: `best` starts at
`policy->cur`; an exact match breaks out; otherwise an entry not exceeding
the request that improves on `best` replaces it. -/
def zen_scan : List Nat → Nat → Nat → Nat
  | [], best, _ => best
  | f :: rest, best, target =>
    if f = target then f
    else if f ≤ target ∧ best < f then zen_scan rest f target
    else zen_scan rest best target

/-- The P-state lookup loop at the end of zen_freq_fast_switch_lockless:
the index of the first point whose frequency equals `best`, keeping the
old `cur_pstate` when none matches. -/
def zen_pstate_index_from : Nat → List ZenPstate → Nat → Nat → Nat
  | _, [], _, old => old
  | i, ps :: rest, best, old =>
    if ps.freq = best then i else zen_pstate_index_from (i + 1) rest best old

def zen_pstate_index (l : List ZenPstate) (best old : Nat) : Nat :=
  zen_pstate_index_from 0 l best old

/-- zen_freq_fast_switch_lockless: `cur` is `policy->cur`, `applyOk` is
whether smp_call_function_single returned 0.  Result: the frequency the
function reports as applied, and the new `cur_pstate`. -/
def zen_freq_fast_switch_lockless (z : ZenFreqCpu) (cur target : Nat)
    (applyOk : Bool) : Nat × Nat :=
  let best0 := zen_scan z.freq_table cur target
  let best1 :=
    match z.perf_target with
    | none => best0
    | some _ =>
      let b :=
        if z.thermal_state ≠ .Normal then
          let limit := ZEN_PERF_TO_FREQ z.thermal_throttle_perf z.lowest_perf
            z.highest_perf z.min_freq z.max_freq
          if best0 > limit then limit else best0
        else best0
      if z.io_boost_active ∧ b < z.nominal_freq then z.nominal_freq else b
  let idx := zen_pstate_index z.pstates best1 z.cur_pstate
  (if applyOk then best1 else cur, idx)

/- ============================================================
   Concrete instances (post-initialization core states)
   ============================================================ -/

/-- Default module parameters (mode=balance, perf bounds 0..255, thermal
limits 80/90, voltage ceiling 1450). -/
def baseParams : ZenParams :=
  { mode := 1, min_perf := 0, max_perf := 255,
    soft_temp := ZEN_THERMAL_SOFT_LIMIT, hard_temp := ZEN_THERMAL_HARD_LIMIT,
    voltage_max := ZEN_VOLTAGE_MAX_SAFE }

/-- A two-point core as zen_freq_init_cpu leaves it: table ascending,
thermal state Normal, throttle ceiling 255 (set in
zen_freq_get_pstate_info), zeroed initial performance target. -/
def baseCpu : ZenFreqCpu :=
  { pstates := [
      { pstate := 0, freq := 2000000, voltage := 1200, vid := 14, fid := 80,
        did := 0, div := 0, en := true, boost := false, safe := true },
      { pstate := 1, freq := 1000000, voltage := 1100, vid := 18, fid := 40,
        did := 0, div := 0, en := true, boost := false, safe := true }]
    max_freq := 2000000
    min_freq := 1000000
    nominal_freq := 2000000
    highest_perf := 255
    lowest_perf := 0
    nominal_perf := 128
    cur_pstate := 0
    perf_target := some zen_perf_target_init
    freq_table := [1000000, 2000000]
    thermal_state := .Normal
    thermal_integral := 0
    thermal_throttle_perf := 255
    last_temp := 0
    io_boost_active := false
    io_boost_expire := 0
    last_io_wait := 0
    util_low_since := 0
    dynamic_epp := 128
    stats_thermal_events := 0
    stats_voltage_clamps := 0 }

/-- A copy of baseCpu whose highest-frequency point is marked voltage-unsafe
(as the verifier does when its derived voltage exceeds the ceiling). -/
def c7cpu : ZenFreqCpu :=
  { baseCpu with
    pstates := [
      { pstate := 0, freq := 2000000, voltage := 1500, vid := 2, fid := 80,
        did := 0, div := 0, en := true, boost := false, safe := false },
      { pstate := 1, freq := 1000000, voltage := 1100, vid := 18, fid := 40,
        did := 0, div := 0, en := true, boost := false, safe := true }] }

/-- A core after a hard thermal throttle event: the thermal state machine
has set thermal_throttle_perf to lowest_perf = 0. -/
def c1cpu : ZenFreqCpu :=
  { baseCpu with thermal_state := ZenThermalState.HardThrottle,
                 thermal_throttle_perf := 0, last_temp := 95 }

/-- A non-boost operating point whose VID decodes to 1500 mV. -/
def vpsPlain : ZenPstate :=
  { pstate := 0, freq := 2000000, voltage := 0, vid := 2, fid := 80,
    did := 0, div := 0, en := true, boost := false, safe := true }

/-- The same operating point marked as a boost state. -/
def vpsBoost : ZenPstate :=
  { vpsPlain with boost := true }

/- ============================================================
   Helper lemmas
   ============================================================ -/

/-- Unsigned 32-bit subtraction agrees with Nat subtraction in range. -/
theorem u32sub_eq_sub (a b : Nat) (hb : b ≤ a) (ha : a < U32) :
    u32sub a b = a - b := by
  simp only [u32sub, U32] at *
  omega

/-- In-range evaluation of the ZEN_FREQ_TO_PERF macro on the 0..255 scale. -/
theorem freq_to_perf_eval (f lo hi : Nat) (h1 : lo ≤ f) (h2 : f ≤ hi)
    (h3 : lo < hi) (h4 : hi < U32) (h5 : 255 * (hi - lo) < U32) :
    ZEN_FREQ_TO_PERF f lo hi 0 255 = 255 * (f - lo) / (hi - lo) := by
  have hfu : u32sub f lo = f - lo := u32sub_eq_sub _ _ h1 (lt_of_le_of_lt h2 h4)
  have hhu : u32sub hi lo = hi - lo := u32sub_eq_sub _ _ (le_of_lt h3) h4
  have h255 : u32sub 255 0 = 255 := by simp [u32sub, U32]
  have hnum : 255 * (f - lo) < U32 :=
    lt_of_le_of_lt (Nat.mul_le_mul_left 255 (Nat.sub_le_sub_right h2 lo)) h5
  have hq : 255 * (f - lo) / (hi - lo) ≤ 255 := by
    calc 255 * (f - lo) / (hi - lo)
        ≤ 255 * (hi - lo) / (hi - lo) :=
          Nat.div_le_div_right (Nat.mul_le_mul_left 255 (Nat.sub_le_sub_right h2 lo))
      _ = 255 := Nat.mul_div_cancel 255 (by omega)
  unfold ZEN_FREQ_TO_PERF
  rw [hfu, hhu, h255, Nat.mod_eq_of_lt hnum, Nat.zero_add,
    Nat.mod_eq_of_lt (lt_of_le_of_lt hq (by norm_num [U32]))]

/-- The ZEN_FREQ_TO_PERF macro is bounded by 255 in range. -/
theorem freq_to_perf_le (f lo hi : Nat) (h1 : lo ≤ f) (h2 : f ≤ hi)
    (h3 : lo < hi) (h4 : hi < U32) (h5 : 255 * (hi - lo) < U32) :
    ZEN_FREQ_TO_PERF f lo hi 0 255 ≤ 255 := by
  rw [freq_to_perf_eval f lo hi h1 h2 h3 h4 h5]
  calc 255 * (f - lo) / (hi - lo)
      ≤ 255 * (hi - lo) / (hi - lo) :=
        Nat.div_le_div_right (Nat.mul_le_mul_left 255 (Nat.sub_le_sub_right h2 lo))
    _ = 255 := Nat.mul_div_cancel 255 (by omega)

/-- The ZEN_FREQ_TO_PERF macro is monotone in the frequency in range. -/
theorem freq_to_perf_mono (f1 f2 lo hi : Nat) (h1 : lo ≤ f1) (h12 : f1 ≤ f2)
    (h2 : f2 ≤ hi) (h3 : lo < hi) (h4 : hi < U32) (h5 : 255 * (hi - lo) < U32) :
    ZEN_FREQ_TO_PERF f1 lo hi 0 255 ≤ ZEN_FREQ_TO_PERF f2 lo hi 0 255 := by
  rw [freq_to_perf_eval f1 lo hi h1 (le_trans h12 h2) h3 h4 h5,
    freq_to_perf_eval f2 lo hi (le_trans h1 h12) h2 h3 h4 h5]
  exact Nat.div_le_div_right (Nat.mul_le_mul_left 255 (Nat.sub_le_sub_right h12 lo))

/-- The P-state index lookup only reads frequencies, so rewriting the safe
flags of every point leaves it unchanged. -/
theorem zen_pstate_index_from_map_safe (g : ZenPstate → Bool) (i : Nat)
    (l : List ZenPstate) (best old : Nat) :
    zen_pstate_index_from i (l.map (fun ps => { ps with safe := g ps })) best old
      = zen_pstate_index_from i l best old := by
  induction l generalizing i with
  | nil => rfl
  | cons ps rest ih =>
    simp only [List.map_cons, zen_pstate_index_from]
    by_cases h : ps.freq = best
    · simp [h]
    · simp [h, ih]

/- ============================================================
   Claim C2 - thermal state trace
   ============================================================ -/

/-- Claim C2: starting in Normal with soft limit 80, hard limit 90,
hysteresis 3, the temperature sequence [70, 85, 95, 86, 76, 70] (one valid
sample per poll) yields the thermal states [Normal, SoftThrottle,
HardThrottle, SoftThrottle, Recovery, Normal], for every value the
unassigned `new_max_perf` byte may take on the SoftThrottle-to-Recovery
poll. -/
theorem c2_thermal_state_trace (u1 u2 u3 u4 u5 u6 : Nat) :
    (zen_thermal_run baseParams baseCpu
        [(70, u1), (85, u2), (95, u3), (86, u4), (76, u5), (70, u6)]).map
      (fun z => z.thermal_state)
      = [ZenThermalState.Normal, ZenThermalState.SoftThrottle,
         ZenThermalState.HardThrottle, ZenThermalState.SoftThrottle,
         ZenThermalState.Recovery, ZenThermalState.Normal] := by
  rfl

/- ============================================================
   Claim C10 - unassigned ceiling candidate
   ============================================================ -/

/-- Claim C10 (code bug): on the SoftThrottle-to-Recovery branch (prior
state SoftThrottle, valid temperature 76 < softLimit - hysteresis = 77 with
the default limits) the state machine assigns no `new_max_perf` candidate
(`none`), yet the C source goes on to read that variable at the
compare-and-store, an uninitialized read. -/
theorem c10_recovery_branch_unassigned :
    zen_thermal_branches baseParams
        { baseCpu with thermal_state := ZenThermalState.SoftThrottle } 76
      = (ZenThermalState.Recovery, 0, none) := by
  rfl

/- ============================================================
   Claim C6 - thermal ceiling bounds
   ============================================================ -/

/-- Claim C6 (counterexample): with the configured maximum performance
zen_freq_max_perf = 200 and a freshly initialized core (ceiling 255 as set
by zen_freq_get_pstate_info), the first poll at 85 degrees enters
SoftThrottle with a PI ceiling of 255, which exceeds the configured
maximum 200 - so the ceiling is not always at most zen_freq_max_perf. -/
theorem c6_ceiling_exceeds_configured_max :
    (zen_thermal_check_cpu { baseParams with max_perf := 200 } baseCpu 85 0).thermal_throttle_perf
        = 255 ∧
    ¬ ((zen_thermal_check_cpu { baseParams with max_perf := 200 } baseCpu 85 0).thermal_throttle_perf
        ≤ ({ baseParams with max_perf := 200 } : ZenParams).max_perf) := by
  decide

/-- Claim C6 (amended): the stored ceiling is a byte and never exceeds 255
(so it is bounded by the configured maximum only in the default
zen_freq_max_perf = 255 configuration); and while in HardThrottle a valid
sample that has not dropped below hardLimit - hysteresis leaves the
ceiling pinned at the lowest performance point. -/
theorem c6_ceiling_bounds (p : ZenParams) (z : ZenFreqCpu) (temp u : Nat)
    (hc : z.thermal_throttle_perf ≤ 255) (hl : z.lowest_perf ≤ 255) :
    (zen_thermal_check_cpu p z temp u).thermal_throttle_perf ≤ 255 ∧
    (z.thermal_state = ZenThermalState.HardThrottle → temp ≠ 0 →
      ¬ temp < u32sub p.hard_temp ZEN_THERMAL_HYSTERESIS →
      (zen_thermal_check_cpu p z temp u).thermal_throttle_perf = z.lowest_perf) := by
  constructor
  · unfold zen_thermal_check_cpu
    split
    · exact hc
    · dsimp only
      split
      · dsimp only
        omega
      · exact hc
  · intro hs ht hlt
    unfold zen_thermal_check_cpu zen_thermal_branches
    rw [if_neg ht]
    dsimp only
    rw [hs]
    dsimp only
    rw [if_neg hlt]
    simp only [Option.getD_some]
    have hmod : z.lowest_perf % 256 = z.lowest_perf := Nat.mod_eq_of_lt (by omega)
    rw [hmod]
    split
    · rfl
    · rename_i hcond
      show z.thermal_throttle_perf = z.lowest_perf
      omega

/-- Claim C6 (amended) witness at a concrete hot HardThrottle poll. -/
theorem c6_ceiling_bounds_witness :
    (zen_thermal_check_cpu baseParams c1cpu 92 0).thermal_throttle_perf ≤ 255 ∧
    (zen_thermal_check_cpu baseParams c1cpu 92 0).thermal_throttle_perf = c1cpu.lowest_perf :=
  ⟨(c6_ceiling_bounds baseParams c1cpu 92 0 (by decide) (by decide)).1,
   (c6_ceiling_bounds baseParams c1cpu 92 0 (by decide) (by decide)).2 rfl
     (by decide) (by decide)⟩

/- ============================================================
   Claim C5 - sequence stamping
   ============================================================ -/

/-- Claim C5 (code bug): zen_perf_target_update stamps the sequence as
cur_pstate + 1, which is not monotonically increasing: two successive
publishes on a core whose cur_pstate stays 2 both get sequence 3, so the
later target's sequence is not strictly greater than the earlier one's. -/
theorem c5_sequence_not_strictly_increasing :
    (zen_perf_target_update { baseCpu with cur_pstate := 2 } 10 0 255 128 100).sequence = 3 ∧
    (zen_perf_target_update { baseCpu with cur_pstate := 2 } 20 0 255 128 200).sequence = 3 ∧
    ¬ (zen_perf_target_update { baseCpu with cur_pstate := 2 } 10 0 255 128 100).sequence <
      (zen_perf_target_update { baseCpu with cur_pstate := 2 } 20 0 255 128 200).sequence := by
  decide

/- ============================================================
   Claim C9 - remote apply failure fallback
   ============================================================ -/

/-- Claim C9: when the cross-core apply cannot be scheduled
(smp_call_function_single fails, applyOk = false), the hot path returns
the previously active frequency policy->cur, and therefore never reports
the requested frequency as applied unless it already was the active one. -/
theorem c9_remote_apply_fallback (z : ZenFreqCpu) (cur target : Nat) :
    (zen_freq_fast_switch_lockless z cur target false).1 = cur ∧
    (cur ≠ target → (zen_freq_fast_switch_lockless z cur target false).1 ≠ target) := by
  constructor
  · rfl
  · intro h
    exact h

/-- Claim C9 witness: a failed remote apply on the base core reports the
old frequency, not the requested one. -/
theorem c9_remote_apply_fallback_witness :
    (1000000 : Nat) ≠ 2000000 ∧
    (zen_freq_fast_switch_lockless baseCpu 1000000 2000000 false).1 ≠ 2000000 :=
  ⟨by decide, (c9_remote_apply_fallback baseCpu 1000000 2000000).2 (by decide)⟩

/- ============================================================
   Claim C3 - hot-path linear scan
   ============================================================ -/

/-- Claim C3 (counterexample): with table [1000000, 2000000] and the
previously-current frequency 1800000 (reachable: the thermal cap is an
interpolated value returned as applied), a request of 1500000 yields
1800000 - the scan result exceeds the request even though the entry
1000000 is at or below it, and it is not the closest entry not exceeding
the request. -/
theorem c3_scan_exceeds_request :
    zen_scan [1000000, 2000000] 1800000 1500000 = 1800000 ∧
    (1000000 : Nat) ∈ [1000000, 2000000] ∧ (1000000 : Nat) ≤ 1500000 ∧
    1800000 > 1500000 ∧
    zen_scan [1000000, 2000000] 1800000 1500000 ≠ 1000000 := by
  decide

/-- Claim C3 (amended): the scan accumulator starts at policy->cur, so an
exact table match returns the request, and otherwise the scan returns the
maximum of policy->cur and the largest table entry not exceeding the
request; the claimed behaviour (closest entry not exceeding, never above
the request) therefore holds exactly when policy->cur does not beat that
entry. -/
theorem c3_scan_characterization (table : List Nat) (cur target : Nat) :
    (target ∈ table → zen_scan table cur target = target) ∧
    (target ∉ table →
      zen_scan table cur target
        = max cur ((table.filter (fun q => q ≤ target)).foldr max 0)) := by
  induction table generalizing cur with
  | nil =>
    refine ⟨fun h => absurd h (List.not_mem_nil target), fun _ => ?_⟩
    simp [zen_scan]
  | cons f rest ih =>
    constructor
    · intro hmem
      by_cases hf : f = target
      · simp only [zen_scan, if_pos hf]
        exact hf
      · have hrest : target ∈ rest := by
          rcases List.mem_cons.mp hmem with h | h
          · exact absurd h.symm hf
          · exact h
        by_cases hc : f ≤ target ∧ cur < f
        · simp only [zen_scan, if_neg hf, if_pos hc]
          exact (ih f).1 hrest
        · simp only [zen_scan, if_neg hf, if_neg hc]
          exact (ih cur).1 hrest
    · intro hnot
      have hf : f ≠ target := by
        intro h
        exact hnot (List.mem_cons.mpr (Or.inl h.symm))
      have hrest : target ∉ rest := fun h => hnot (List.mem_cons.mpr (Or.inr h))
      by_cases hc : f ≤ target ∧ cur < f
      · rw [show zen_scan (f :: rest) cur target = zen_scan rest f target by
          simp only [zen_scan, if_neg hf, if_pos hc]]
        rw [(ih f).2 hrest]
        rw [List.filter_cons_of_pos (by simpa using hc.1), List.foldr_cons]
        have h1 : cur ≤ max f ((rest.filter (fun q => q ≤ target)).foldr max 0) :=
          le_trans (le_of_lt hc.2) (le_max_left _ _)
        exact (max_eq_right h1).symm
      · rw [show zen_scan (f :: rest) cur target = zen_scan rest cur target by
          simp only [zen_scan, if_neg hf, if_neg hc]]
        rw [(ih cur).2 hrest]
        by_cases hle : f ≤ target
        · rw [List.filter_cons_of_pos (by simpa using hle), List.foldr_cons]
          have hfc : f ≤ cur := by
            rcases Nat.lt_or_ge cur f with h | h
            · exact absurd ⟨hle, h⟩ hc
            · exact h
          rw [← max_assoc, max_eq_left hfc]
        · rw [List.filter_cons_of_neg (by simpa using hle)]

/-- Claim C3 (amended) witness: an exact match returns the request, and a
mismatch returns the maximum of policy->cur and the best entry below. -/
theorem c3_scan_characterization_witness :
    ((2000000 : Nat) ∈ [1000000, 2000000] ∧
      zen_scan [1000000, 2000000] 800000 2000000 = 2000000) ∧
    ((1500000 : Nat) ∉ [1000000, 2000000] ∧
      zen_scan [1000000, 2000000] 800000 1500000
        = max 800000 (([1000000, 2000000].filter (fun q => q ≤ 1500000)).foldr max 0)) :=
  ⟨⟨by decide, (c3_scan_characterization [1000000, 2000000] 800000 2000000).1 (by decide)⟩,
   ⟨by decide, (c3_scan_characterization [1000000, 2000000] 800000 1500000).2 (by decide)⟩⟩

/- ============================================================
   Claim C7 - selector and voltage-safe markings
   ============================================================ -/

/-- Claim C7 (counterexample): on a core whose highest point is marked
voltage-unsafe but whose lowest point is safe, a request for the highest
frequency selects P-state index 0, the unsafe point - the selector does
not restrict itself to the marked-safe set (and has no zero-safe-points
fallback). -/
theorem c7_selector_picks_unsafe_point :
    (zen_freq_fast_switch_lockless c7cpu 1000000 2000000 true).1 = 2000000 ∧
    (zen_freq_fast_switch_lockless c7cpu 1000000 2000000 true).2 = 0 ∧
    c7cpu.pstates.map (fun ps => ps.safe) = [false, true] := by
  decide

/-- Claim C7 (amended): the hot-path selector ignores the isVoltageSafe
markings entirely - rewriting the safe flag of every operating point in
any way leaves both the reported frequency and the chosen P-state index
unchanged. -/
theorem c7_selector_ignores_safe_flags (z : ZenFreqCpu) (g : ZenPstate → Bool)
    (cur target : Nat) (ok : Bool) :
    zen_freq_fast_switch_lockless
        { z with pstates := z.pstates.map (fun ps => { ps with safe := g ps }) }
        cur target ok
      = zen_freq_fast_switch_lockless z cur target ok := by
  unfold zen_freq_fast_switch_lockless zen_pstate_index
  dsimp only
  rw [zen_pstate_index_from_map_safe]

/- ============================================================
   Claim C8 - voltage verifier policy
   ============================================================ -/

/-- Claim C8: an over-ceiling point is accepted exactly when it is a boost
point within the extended boost ceiling, and otherwise it is marked unsafe
with the clamp counter incremented once per rejected point of the main
array; the verifier verdict is the branch decision applied to the derived
voltage, and at voltage 1460 mV against ceiling 1450 mV a non-boost point
is rejected while a boost point (extended ceiling 1500 mV) is accepted. -/
theorem c8_voltage_verifier_policy :
    (∀ (vmax : Nat) (ps : ZenPstate),
        ZEN_VID_TO_MV ps.vid > vmax → ps.boost = true →
        ZEN_VID_TO_MV ps.vid ≤ ZEN_VOLTAGE_BOOST_MAX →
        (zen_voltage_verify_pstate vmax ps).2 = true) ∧
    (∀ (vmax : Nat) (ps : ZenPstate),
        ZEN_VID_TO_MV ps.vid > vmax →
        ¬ (ps.boost = true ∧ ZEN_VID_TO_MV ps.vid ≤ ZEN_VOLTAGE_BOOST_MAX) →
        (zen_voltage_verify_pstate vmax ps).2 = false ∧
        (zen_voltage_verify_pstate vmax ps).1.safe = false) ∧
    (∀ (vmax : Nat) (l : List ZenPstate),
        (zen_voltage_check_list vmax l).2
          = (l.filter (fun q => !(zen_voltage_verify_pstate vmax q).2)).length) ∧
    (∀ (vmax : Nat) (ps : ZenPstate),
        (zen_voltage_verify_pstate vmax ps).2
          = zen_voltage_verify_decision (ZEN_VID_TO_MV ps.vid) vmax ps.boost) ∧
    zen_voltage_verify_decision 1460 1450 false = false ∧
    zen_voltage_verify_decision 1460 1450 true = true := by
  refine ⟨?_, ?_, ?_, ?_, by decide, by decide⟩
  · intro vmax ps hov hb hle
    simp only [zen_voltage_verify_pstate]
    rw [if_pos hov, if_pos (show ps.boost = true ∧
      ZEN_VID_TO_MV ps.vid ≤ ZEN_VOLTAGE_BOOST_MAX from ⟨hb, hle⟩)]
  · intro vmax ps hov hnot
    simp only [zen_voltage_verify_pstate]
    rw [if_pos hov, if_neg hnot]
    exact ⟨rfl, rfl⟩
  · intro vmax l
    induction l with
    | nil => rfl
    | cons q rest ih =>
      simp only [zen_voltage_check_list, List.filter_cons]
      cases hq : (zen_voltage_verify_pstate vmax q).2
      · simp [hq, ih]
        omega
      · simp [hq, ih]
  · intro vmax ps
    simp only [zen_voltage_verify_pstate, zen_voltage_verify_decision]
    split_ifs with h1 h2
    · simp [h2.1, h2.2]
    · cases hb : ps.boost
      · simp [hb]
      · have hv : ¬ ZEN_VID_TO_MV ps.vid ≤ ZEN_VOLTAGE_BOOST_MAX :=
          fun hvle => h2 ⟨hb, hvle⟩
        simp [hb, hv]
    · rfl

/-- Claim C8 witness at concrete points (VID 2 decodes to 1500 mV, above
the 1450 mV ceiling): boost point accepted, plain point marked unsafe. -/
theorem c8_voltage_verifier_policy_witness :
    (zen_voltage_verify_pstate 1450 vpsBoost).2 = true ∧
    (zen_voltage_verify_pstate 1450 vpsPlain).2 = false ∧
    (zen_voltage_verify_pstate 1450 vpsPlain).1.safe = false :=
  ⟨c8_voltage_verifier_policy.1 1450 vpsBoost (by decide) (by decide) (by decide),
   (c8_voltage_verifier_policy.2.1 1450 vpsPlain (by decide) (by decide)).1,
   (c8_voltage_verifier_policy.2.1 1450 vpsPlain (by decide) (by decide)).2⟩

/- ============================================================
   Claim C1 - published performance-target invariant
   ============================================================ -/

/-- Claim C1 (counterexample): after a hard thermal throttle has set the
core's throttle ceiling to lowest_perf = 0, the policy-update path
publishes a target with desiredPerf = 255 (from policy->max) and
maxPerf = 0 (the throttle ceiling is passed as the max argument), so the
published target violates desiredPerf <= maxPerf. -/
theorem c1_published_target_violates_invariant :
    (zen_freq_set_policy c1cpu 1000000 2000000 0).desired_perf = 255 ∧
    (zen_freq_set_policy c1cpu 1000000 2000000 0).max_perf = 0 ∧
    ¬ ((zen_freq_set_policy c1cpu 1000000 2000000 0).desired_perf ≤
       (zen_freq_set_policy c1cpu 1000000 2000000 0).max_perf) := by
  decide

/-- Claim C1 (amended): for in-range policy bounds the published target
satisfies minPerf <= desiredPerf, all three fields lie within
[lowestPerf, highestPerf] = [0, 255], and desiredPerf <= maxPerf holds
whenever the thermal throttle ceiling (passed as maxPerf) is at its
untrottled value 255; the initial all-zero target satisfies the full
invariant. -/
theorem c1_published_target_bounds (z : ZenFreqCpu) (pmin pmax now : Nat)
    (hlo : z.lowest_perf = 0) (hhi : z.highest_perf = 255)
    (h1 : z.min_freq ≤ pmin) (h2 : pmin ≤ pmax) (h3 : pmax ≤ z.max_freq)
    (h4 : z.min_freq < z.max_freq) (h5 : z.max_freq < U32)
    (h6 : 255 * (z.max_freq - z.min_freq) < U32) :
    (zen_freq_set_policy z pmin pmax now).min_perf
        ≤ (zen_freq_set_policy z pmin pmax now).desired_perf ∧
    z.lowest_perf ≤ (zen_freq_set_policy z pmin pmax now).min_perf ∧
    (zen_freq_set_policy z pmin pmax now).min_perf ≤ z.highest_perf ∧
    z.lowest_perf ≤ (zen_freq_set_policy z pmin pmax now).max_perf ∧
    (zen_freq_set_policy z pmin pmax now).max_perf ≤ z.highest_perf ∧
    (zen_freq_set_policy z pmin pmax now).desired_perf ≤ z.highest_perf ∧
    (z.thermal_throttle_perf = 255 →
      (zen_freq_set_policy z pmin pmax now).desired_perf
        ≤ (zen_freq_set_policy z pmin pmax now).max_perf) ∧
    zen_perf_target_init.min_perf ≤ zen_perf_target_init.desired_perf ∧
    zen_perf_target_init.desired_perf ≤ zen_perf_target_init.max_perf := by
  have hdmax : ZEN_FREQ_TO_PERF pmax z.min_freq z.max_freq 0 255 ≤ 255 :=
    freq_to_perf_le pmax z.min_freq z.max_freq (le_trans h1 h2) h3 h4 h5 h6
  have hdmin : ZEN_FREQ_TO_PERF pmin z.min_freq z.max_freq 0 255 ≤ 255 :=
    freq_to_perf_le pmin z.min_freq z.max_freq h1 (le_trans h2 h3) h4 h5 h6
  have hmono : ZEN_FREQ_TO_PERF pmin z.min_freq z.max_freq 0 255
      ≤ ZEN_FREQ_TO_PERF pmax z.min_freq z.max_freq 0 255 :=
    freq_to_perf_mono pmin pmax z.min_freq z.max_freq h1 h2 h3 h4 h5 h6
  unfold zen_freq_set_policy zen_perf_target_update zen_perf_target_init
  dsimp only
  refine ⟨by omega, by omega, by omega, by omega, by omega, by omega,
    fun ht => by omega, by omega, by omega⟩

/-- Claim C1 (amended) witness on the freshly initialized base core. -/
theorem c1_published_target_bounds_witness :
    (zen_freq_set_policy baseCpu 1000000 2000000 7).min_perf
        ≤ (zen_freq_set_policy baseCpu 1000000 2000000 7).desired_perf ∧
    (zen_freq_set_policy baseCpu 1000000 2000000 7).desired_perf
        ≤ (zen_freq_set_policy baseCpu 1000000 2000000 7).max_perf :=
  ⟨(c1_published_target_bounds baseCpu 1000000 2000000 7 rfl rfl (by decide)
      (by decide) (by decide) (by decide) (by decide) (by decide)).1,
   (c1_published_target_bounds baseCpu 1000000 2000000 7 rfl rfl (by decide)
      (by decide) (by decide) (by decide) (by decide) (by decide)).2.2.2.2.2.2.1 rfl⟩
